import Mathlib

/-!
Shallow embedding of the validation and order-submission core of the
Binance futures trading bot (src/bot/validators.py, src/bot/orders.py,
src/bot/client.py).  Python floats are modelled as `PFloat` (rationals
plus the special values nan, +inf, -inf with IEEE-style comparison),
Python values handed to the validators as `PyVal`, and each Python
function as a Lean function of the same name.  Exceptions (`ValueError`)
become `Except VError`.
-/

/-- Model of a Python float: nan, the two infinities, or a finite value
(idealised as a rational). -/
inductive PFloat where
  | nan
  | inf
  | ninf
  | val (q : ℚ)
deriving DecidableEq, Repr

/-- IEEE-style `<=` on Python floats: any comparison involving nan is
false. -/
def PFloat.le : PFloat → PFloat → Bool
  | .nan, _ => false
  | _, .nan => false
  | .ninf, _ => true
  | _, .ninf => false
  | _, .inf => true
  | .inf, _ => false
  | .val x, .val y => decide (x ≤ y)

/-- IEEE-style `<` on Python floats: any comparison involving nan is
false. -/
def PFloat.lt : PFloat → PFloat → Bool
  | .nan, _ => false
  | _, .nan => false
  | .ninf, .ninf => false
  | .ninf, _ => true
  | _, .ninf => false
  | .inf, _ => false
  | _, .inf => true
  | .val x, .val y => decide (x < y)

/-- Model of a Python value as received by the validators: a string, a
float, an int, `None`, or some other object with no float conversion. -/
inductive PyVal where
  | str (s : String)
  | float (x : PFloat)
  | int (n : Int)
  | pynone
  | other
deriving DecidableEq, Repr

/-- Python whitespace characters as used by `str.strip()`. -/
def pyIsSpace (c : Char) : Bool :=
  c = ' ' || c = '\t' || c = '\n' || c = '\r' || c = '\x0b' || c = '\x0c'

/-- Python `str.strip()`: removes leading and trailing whitespace. -/
def pyStrip (s : String) : String :=
  String.mk (((s.data.dropWhile pyIsSpace).reverse.dropWhile pyIsSpace).reverse)

/-- Python `str.upper()` restricted to ASCII. -/
def strUpper (s : String) : String :=
  String.mk (s.data.map Char.toUpper)

/-- Split a character list at the first character satisfying `p`,
returning the part before and the part after it. -/
def listSplitFirst (p : Char → Bool) : List Char → Option (List Char × List Char)
  | [] => Option.none
  | c :: cs =>
    if p c then some ([], cs)
    else (listSplitFirst p cs).map (fun r => (c :: r.1, r.2))

/-- Numeric value of a digit list (0 for the empty list). -/
def digitsNat (l : List Char) : ℕ :=
  l.foldl (fun a c => a * 10 + (c.toNat - 48)) 0

/-- Parse a nonempty all-digit list to a natural number. -/
def natOfDigits (l : List Char) : Option ℕ :=
  if l ≠ [] ∧ l.all Char.isDigit then some (digitsNat l) else Option.none

/-- Parse an unsigned decimal literal `digits[.digits]`, `.digits` or
`digits.` to a pair (digit value, number of fractional digits), so that
the denoted value is the first component divided by ten to the second. -/
def parseUnsignedDec (l : List Char) : Option (ℕ × ℕ) :=
  match listSplitFirst (fun c => c = '.') l with
  | Option.none => (natOfDigits l).map (fun n => (n, 0))
  | some r =>
    if r.2.any (fun c => c = '.') then Option.none
    else if ¬ (r.1.all Char.isDigit ∧ r.2.all Char.isDigit) then Option.none
    else if r.1 = [] ∧ r.2 = [] then Option.none
    else some (digitsNat (r.1 ++ r.2), r.2.length)

/-- Parse an optionally signed exponent part. -/
def parseExpPart (l : List Char) : Option ℤ :=
  match l with
  | '+' :: r => (natOfDigits r).map Int.ofNat
  | '-' :: r => (natOfDigits r).map (fun n => -(n : ℤ))
  | r => (natOfDigits r).map Int.ofNat

/-- The rational `n / 10 ^ fl * 10 ^ ex`, computed as a single
`Rat.divInt` of natural-number products. -/
def decValue (n : ℕ) (fl : ℕ) (ex : ℤ) : ℚ :=
  if 0 ≤ ex then Rat.divInt (n * 10 ^ ex.toNat) (10 ^ fl)
  else Rat.divInt n (10 ^ (fl + (-ex).toNat))

/-- Parse a decimal literal with optional `e`/`E` exponent. -/
def parseMantExp (l : List Char) : Option ℚ :=
  match listSplitFirst (fun c => c = 'e' || c = 'E') l with
  | Option.none => (parseUnsignedDec l).map (fun p => decValue p.1 p.2 0)
  | some r =>
    match parseUnsignedDec r.1, parseExpPart r.2 with
    | some p, some ex => some (decValue p.1 p.2 ex)
    | _, _ => Option.none

/-- Model of Python `float(s)` on a string: strip whitespace, optional
sign, then `nan`, `inf`/`infinity` (case-insensitive) or a decimal
literal. -/
def parsePyFloat (s : String) : Option PFloat :=
  let t := (pyStrip s).data
  let sb : Bool × List Char :=
    match t with
    | '+' :: r => (true, r)
    | '-' :: r => (false, r)
    | r => (true, r)
  let low := sb.2.map Char.toLower
  if low = "nan".data then some PFloat.nan
  else if low = "inf".data ∨ low = "infinity".data then
    some (if sb.1 then PFloat.inf else PFloat.ninf)
  else (parseMantExp sb.2).map (fun q => PFloat.val (if sb.1 then q else -q))

/-- Model of Python `float(x)` on an arbitrary value: `None` and other
non-convertible objects raise (here: `Option.none`). -/
def pyFloat : PyVal → Option PFloat
  | .str s => parsePyFloat s
  | .float x => some x
  | .int n => some (PFloat.val (n : ℚ))
  | .pynone => Option.none
  | .other => Option.none

/-- Structural decidable equality on `Except`. -/
def exceptDecEq {ε α : Type} [DecidableEq ε] [DecidableEq α] :
    (a b : Except ε α) → Decidable (a = b)
  | .error e1, .error e2 =>
    if h : e1 = e2 then isTrue (h ▸ rfl)
    else isFalse (fun hh => h (Except.error.inj hh))
  | .ok a1, .ok a2 =>
    if h : a1 = a2 then isTrue (h ▸ rfl)
    else isFalse (fun hh => h (Except.ok.inj hh))
  | .error _, .ok _ => isFalse (fun hh => Except.noConfusion hh)
  | .ok _, .error _ => isFalse (fun hh => Except.noConfusion hh)

instance {ε α : Type} [DecidableEq ε] [DecidableEq α] : DecidableEq (Except ε α) :=
  exceptDecEq

/-- The distinct `ValueError` raise sites of src/bot/validators.py. -/
inductive VError where
  | symbolNotString
  | symbolNotAlnum (s : String)
  | symbolTooShort (n : ℕ)
  | sideNotString
  | sideInvalid (s : String)
  | typeNotString
  | typeInvalid (s : String)
  | qtyNotNumber
  | qtyNotPositive (q : PFloat)
  | priceRequired
  | priceNotNumber
  | priceNotPositive (p : PFloat)
deriving DecidableEq, Repr

/-- Uppercase-alphanumeric test matching the regex `[A-Z0-9]` of
validate_symbol. -/
def isUpperAlnum (c : Char) : Bool :=
  ('A' ≤ c && c ≤ 'Z') || ('0' ≤ c && c ≤ '9')

/-- General alphanumeric test (used to state claims about raw,
un-normalized symbol strings). -/
def isAlnumChar (c : Char) : Bool :=
  c.isAlpha || c.isDigit

/-- validators.validate_symbol: non-empty string, upper-cased and
stripped, must fully match `[A-Z0-9]+` and have length at least 2. -/
def validate_symbol (symbol : PyVal) : Except VError String :=
  match symbol with
  | .str s =>
    if s = "" then .error .symbolNotString
    else
      let t := pyStrip (strUpper s)
      if t.data ≠ [] ∧ t.data.all isUpperAlnum then
        if t.length < 2 then .error (.symbolTooShort t.length)
        else .ok t
      else .error (.symbolNotAlnum t)
  | _ => .error .symbolNotString

/-- validators.validate_side: non-empty string, upper-cased and
stripped, must be BUY or SELL. -/
def validate_side (side : PyVal) : Except VError String :=
  match side with
  | .str s =>
    if s = "" then .error .sideNotString
    else
      let t := pyStrip (strUpper s)
      if t = "BUY" ∨ t = "SELL" then .ok t
      else .error (.sideInvalid t)
  | _ => .error .sideNotString

/-- validators.validate_order_type: non-empty string, upper-cased and
stripped, must be MARKET or LIMIT. -/
def validate_order_type (order_type : PyVal) : Except VError String :=
  match order_type with
  | .str s =>
    if s = "" then .error .typeNotString
    else
      let t := pyStrip (strUpper s)
      if t = "MARKET" ∨ t = "LIMIT" then .ok t
      else .error (.typeInvalid t)
  | _ => .error .typeNotString

/-- validators.validate_quantity: `float(quantity)` must succeed and
the result must not satisfy `qty <= 0`. -/
def validate_quantity (quantity : PyVal) : Except VError PFloat :=
  match pyFloat quantity with
  | Option.none => .error .qtyNotNumber
  | some q =>
    if PFloat.le q (PFloat.val 0) then .error (.qtyNotPositive q)
    else .ok q

/-- validators.validate_price: on `order_type == 'LIMIT'` the price must
be present, parse as a float and not satisfy `px <= 0`; on any other
order_type the price is discarded and `None` returned. -/
def validate_price (price : PyVal) (order_type : PyVal) : Except VError (Option PFloat) :=
  if order_type = PyVal.str "LIMIT" then
    match price with
    | .pynone => .error .priceRequired
    | _ =>
      match pyFloat price with
      | Option.none => .error .priceNotNumber
      | some px =>
        if PFloat.le px (PFloat.val 0) then .error (.priceNotPositive px)
        else .ok (some px)
  else .ok Option.none

/-- The dictionary returned by validators.validate_all_inputs. -/
structure Validated where
  symbol : String
  side : String
  order_type : String
  quantity : PFloat
  price : Option PFloat
deriving DecidableEq, Repr

/-- validators.validate_all_inputs: runs the five validators in order
(symbol, side, order type, quantity, then price against the validated
order type); the first `ValueError` propagates unchanged. -/
def validate_all_inputs (symbol side order_type quantity price : PyVal) :
    Except VError Validated :=
  match validate_symbol symbol with
  | .error e => .error e
  | .ok s =>
    match validate_side side with
    | .error e => .error e
    | .ok sd =>
      match validate_order_type order_type with
      | .error e => .error e
      | .ok ot =>
        match validate_quantity quantity with
        | .error e => .error e
        | .ok q =>
          match validate_price price (PyVal.str ot) with
          | .error e => .error e
          | .ok px => .ok ⟨s, sd, ot, q, px⟩

/-- A raw exchange response, modelled as a Python dict: an association
list from string keys to values. -/
def PyDict : Type := List (String × PyVal)

/-- Python `dict.get(k)`: the value at the first matching key, or `None`
(here `Option.none`) when the key is absent. -/
def dictGet (d : PyDict) (k : String) : Option PyVal :=
  (List.find? (fun p => p.1 = k) d).map (fun p => p.2)

/-- The standardized order-details dict built by
orders.extract_order_details. -/
structure OrderResult where
  orderId : Option PyVal
  symbol : Option PyVal
  side : Option PyVal
  type : Option PyVal
  status : Option PyVal
  executedQty : Option PyVal
  avgPrice : Option PyVal
  timestamp : Option PyVal
deriving DecidableEq, Repr

/-- orders.extract_order_details: the fixed projection of a raw response
onto the eight standardized fields (updateTime becomes timestamp). -/
def extract_order_details (response : PyDict) : OrderResult :=
  { orderId := dictGet response "orderId"
    symbol := dictGet response "symbol"
    side := dictGet response "side"
    type := dictGet response "type"
    status := dictGet response "status"
    executedQty := dictGet response "executedQty"
    avgPrice := dictGet response "avgPrice"
    timestamp := dictGet response "updateTime" }

/-- A call made to the BinanceClient: client.place_market_order sends
symbol, side and quantity; client.place_limit_order sends symbol, side,
quantity, price and the hard-coded timeInForce value. -/
inductive ClientCall where
  | market_order (symbol side : String) (quantity : PFloat)
  | limit_order (symbol side : String) (quantity : PFloat)
      (price : Option PFloat) (timeInForce : String)
deriving DecidableEq, Repr

/-- OrderService.place_order: validate all inputs, then dispatch to
place_market_order when the validated order type is MARKET and to
place_limit_order (with timeInForce GTC, per client.place_limit_order)
otherwise, and normalize the client response.  The second component is
the list of client calls made; a `ValueError` from validation
propagates with no call made.  `client` models the exchange's response
to a call. -/
def place_order (client : ClientCall → PyDict)
    (symbol side order_type quantity price : PyVal) :
    Except VError OrderResult × List ClientCall :=
  match validate_all_inputs symbol side order_type quantity price with
  | .error e => (.error e, [])
  | .ok v =>
    let call : ClientCall :=
      if v.order_type = "MARKET" then .market_order v.symbol v.side v.quantity
      else .limit_order v.symbol v.side v.quantity v.price "GTC"
    (.ok (extract_order_details (client call)), [call])

/-- Whether an `Except` is an error. -/
def isErr {ε α : Type} : Except ε α → Bool
  | .error _ => true
  | .ok _ => false

example : parsePyFloat "3500.50" = some (.val (Rat.divInt 7001 2)) := by decide

example : parsePyFloat " -2.5e-1 " = some (.val (Rat.divInt (-1) 4)) := by decide

example : parsePyFloat "abc" = Option.none := by decide

example : pyFloat (.int 3) = some (.val 3) := by decide

/-- C8: validate_all_inputs on ("btcusdt", "buy", "market", 0.001, None)
succeeds and returns exactly symbol "BTCUSDT", side "BUY", order type
"MARKET", quantity 0.001 and no price. -/
theorem validate_all_inputs_roundtrip :
    validate_all_inputs (.str "btcusdt") (.str "buy") (.str "market")
      (.float (.val (Rat.divInt 1 1000))) .pynone =
    .ok ⟨"BTCUSDT", "BUY", "MARKET", .val (Rat.divInt 1 1000), Option.none⟩ := by
  decide

/-- C10: the string "nan" parses to NaN, the guard `qty <= 0` is false
for NaN, so validate_quantity succeeds and returns NaN, which is not
strictly positive. -/
theorem validate_quantity_nan_passes :
    pyFloat (.str "nan") = some PFloat.nan ∧
    PFloat.le PFloat.nan (PFloat.val 0) = false ∧
    validate_quantity (.str "nan") = .ok PFloat.nan ∧
    PFloat.lt (PFloat.val 0) PFloat.nan = false := by
  decide

/-- C5: every quantity that fails float conversion, or converts to a
value satisfying `qty <= 0`, is rejected by validate_quantity with the
corresponding ValueError. -/
theorem validate_quantity_rejects (q : PyVal) :
    (pyFloat q = Option.none → validate_quantity q = .error .qtyNotNumber) ∧
    (∀ x, pyFloat q = some x → PFloat.le x (PFloat.val 0) = true →
      validate_quantity q = .error (.qtyNotPositive x)) := by
  constructor
  · intro h
    simp [validate_quantity, h]
  · intro x hx hle
    simp [validate_quantity, hx, hle]

/-- Witness for C5 at the non-numeric string "abc" and the
non-positive quantity 0. -/
theorem validate_quantity_rejects_witness :
    validate_quantity (.str "abc") = .error .qtyNotNumber ∧
    validate_quantity (.int 0) = .error (.qtyNotPositive (.val 0)) :=
  ⟨(validate_quantity_rejects (.str "abc")).1 (by decide),
   (validate_quantity_rejects (.int 0)).2 (.val 0) (by decide) (by decide)⟩

/-- C9: validate_price tests `order_type == 'LIMIT'` exactly and
case-sensitively: for any other value — including the lowercase string
"limit" and arbitrary non-strings — it takes the MARKET branch, never
raises, discards any supplied price, and returns None. -/
theorem validate_price_non_limit (ot : PyVal) (h : ot ≠ PyVal.str "LIMIT")
    (price : PyVal) :
    validate_price price ot = .ok Option.none := by
  simp [validate_price, h]

/-- Witness for C9 at order type "limit" and discarded price "abc". -/
theorem validate_price_non_limit_witness :
    validate_price (.str "abc") (.str "limit") = .ok Option.none :=
  validate_price_non_limit (.str "limit") (by decide) (.str "abc")

/-- C3: price validation is conditional on the order type: for LIMIT a
missing price fails with the dedicated error, an unparseable price
fails, a non-positive parsed price fails; for MARKET any price at all
succeeds with normalized price absent. -/
theorem validate_price_spec (p : PyVal) :
    (validate_price .pynone (.str "LIMIT") = .error .priceRequired) ∧
    (pyFloat p = Option.none → isErr (validate_price p (.str "LIMIT")) = true) ∧
    (∀ x, pyFloat p = some x → PFloat.le x (PFloat.val 0) = true →
      validate_price p (.str "LIMIT") = .error (.priceNotPositive x)) ∧
    (validate_price p (.str "MARKET")  = .ok Option.none) := by
  refine ⟨by decide, ?_, ?_, ?_⟩
  · intro h
    cases p <;> simp_all [validate_price, isErr, pyFloat]
  · intro x hx hle
    cases p <;> simp_all [validate_price, pyFloat]
  · simp [validate_price]

/-- Witness for C3 at the unparseable price "abc", the non-positive
price 0.0 and a MARKET order carrying the price 5. -/
theorem validate_price_spec_witness :
    validate_price .pynone (.str "LIMIT") = .error .priceRequired ∧
    isErr (validate_price (.str "abc") (.str "LIMIT")) = true ∧
    validate_price (.float (.val 0)) (.str "LIMIT") =
      .error (.priceNotPositive (.val 0)) ∧
    validate_price (.int 5) (.str "MARKET") = .ok Option.none :=
  ⟨(validate_price_spec .pynone).1,
   (validate_price_spec (.str "abc")).2.1 (by decide),
   (validate_price_spec (.float (.val 0))).2.2.1 (.val 0) (by decide) (by decide),
   (validate_price_spec (.int 5)).2.2.2⟩

/-- C6: extract_order_details is the fixed projection of the response
dict onto orderId, symbol, side, type, status, executedQty, avgPrice and
updateTime (stored as timestamp), and a key absent from the response
looks up to None, so every absent field maps to an absent value. -/
theorem extract_order_details_spec (r : PyDict) :
    (extract_order_details r).orderId = dictGet r "orderId" ∧
    (extract_order_details r).symbol = dictGet r "symbol" ∧
    (extract_order_details r).side = dictGet r "side" ∧
    (extract_order_details r).type = dictGet r "type" ∧
    (extract_order_details r).status = dictGet r "status" ∧
    (extract_order_details r).executedQty = dictGet r "executedQty" ∧
    (extract_order_details r).avgPrice = dictGet r "avgPrice" ∧
    (extract_order_details r).timestamp = dictGet r "updateTime" ∧
    (∀ k, k ∉ r.map Prod.fst → dictGet r k = Option.none) := by
  refine ⟨rfl, rfl, rfl, rfl, rfl, rfl, rfl, rfl, ?_⟩
  intro k hk
  have hnone : List.find? (fun p => p.1 = k) r = Option.none := by
    rw [List.find?_eq_none]
    intro x hx
    simp only [decide_eq_true_eq]
    intro heq
    exact hk (List.mem_map.mpr ⟨x, hx, heq⟩)
  simp [dictGet, hnone]

/-- Witness for C6 at a one-field response lacking avgPrice. -/
theorem extract_order_details_spec_witness :
    (extract_order_details [("orderId", PyVal.int 12345)]).avgPrice =
      Option.none := by
  have h := extract_order_details_spec [("orderId", PyVal.int 12345)]
  rw [h.2.2.2.2.2.2.1]
  exact h.2.2.2.2.2.2.2.2 "avgPrice" (by decide)

/-- C1: when any of the five field validations fails, place_order
propagates that validation error and makes no client call at all. -/
theorem place_order_nothing_sent (client : ClientCall → PyDict)
    (symbol side order_type quantity price : PyVal) (e : VError)
    (h : validate_all_inputs symbol side order_type quantity price = .error e) :
    place_order client symbol side order_type quantity price = (.error e, []) := by
  simp [place_order, h]

/-- Witness for C1 at an invalid (None) symbol. -/
theorem place_order_nothing_sent_witness :
    place_order (fun _ => []) .pynone (.str "buy") (.str "market")
      (.int 1) .pynone = (.error .symbolNotString, []) :=
  place_order_nothing_sent (fun _ => []) .pynone (.str "buy") (.str "market")
    (.int 1) .pynone .symbolNotString (by decide)

/-- C7: validate_all_inputs checks symbol, then side, then order type,
then quantity, then price; the first failing check's error is the one
raised, regardless of the later fields. -/
theorem validate_all_inputs_sequencing
    (symbol side order_type quantity price : PyVal) :
    (∀ e, validate_symbol symbol = .error e →
      validate_all_inputs symbol side order_type quantity price = .error e) ∧
    (∀ s e, validate_symbol symbol = .ok s →
      validate_side side = .error e →
      validate_all_inputs symbol side order_type quantity price = .error e) ∧
    (∀ s sd e, validate_symbol symbol = .ok s →
      validate_side side = .ok sd →
      validate_order_type order_type = .error e →
      validate_all_inputs symbol side order_type quantity price = .error e) ∧
    (∀ s sd t e, validate_symbol symbol = .ok s →
      validate_side side = .ok sd →
      validate_order_type order_type = .ok t →
      validate_quantity quantity = .error e →
      validate_all_inputs symbol side order_type quantity price = .error e) ∧
    (∀ s sd t q e, validate_symbol symbol = .ok s →
      validate_side side = .ok sd →
      validate_order_type order_type = .ok t →
      validate_quantity quantity = .ok q →
      validate_price price (.str t) = .error e →
      validate_all_inputs symbol side order_type quantity price = .error e) := by
  refine ⟨?_, ?_, ?_, ?_, ?_⟩
  · intro e h1
    simp [validate_all_inputs, h1]
  · intro s e h1 h2
    simp [validate_all_inputs, h1, h2]
  · intro s sd e h1 h2 h3
    simp [validate_all_inputs, h1, h2, h3]
  · intro s sd t e h1 h2 h3 h4
    simp [validate_all_inputs, h1, h2, h3, h4]
  · intro s sd t q e h1 h2 h3 h4 h5
    simp [validate_all_inputs, h1, h2, h3, h4, h5]

/-- Witness for C7: with the symbol, side, type and quantity all
invalid, the error raised is the symbol's. -/
theorem validate_all_inputs_sequencing_witness :
    validate_all_inputs (.str "b@d") (.str "nope") (.str "x") (.int 0)
      .pynone = .error (.symbolNotAlnum "B@D") :=
  (validate_all_inputs_sequencing (.str "b@d") (.str "nope") (.str "x")
    (.int 0) .pynone).1 (.symbolNotAlnum "B@D") (by decide)

/-- A validated order type is exactly MARKET or LIMIT. -/
theorem validate_order_type_ok_cases (ot : PyVal) (t : String)
    (h : validate_order_type ot = .ok t) : t = "MARKET" ∨ t = "LIMIT" := by
  cases ot with
  | str s =>
    by_cases hs : s = ""
    · simp [validate_order_type, hs] at h
    · simp only [validate_order_type, if_neg hs] at h
      split at h
      · next hcond =>
        simp only [Except.ok.injEq] at h
        exact h ▸ hcond
      · simp at h
  | float x => simp [validate_order_type] at h
  | int n => simp [validate_order_type] at h
  | pynone => simp [validate_order_type] at h
  | other => simp [validate_order_type] at h

/-- A price validated under order type LIMIT is always present. -/
theorem validate_price_limit_some (p : PyVal) (px : Option PFloat)
    (h : validate_price p (.str "LIMIT") = .ok px) : ∃ x, px = some x := by
  unfold validate_price at h
  rw [if_pos rfl] at h
  cases p with
  | pynone => simp at h
  | str s =>
    cases hpf : pyFloat (.str s) with
    | none => simp [hpf] at h
    | some x =>
      simp only [hpf] at h
      split at h
      · simp at h
      · simp only [Except.ok.injEq] at h
        exact ⟨x, h.symm⟩
  | float x0 =>
    cases hpf : pyFloat (.float x0) with
    | none => simp [hpf] at h
    | some x =>
      simp only [hpf] at h
      split at h
      · simp at h
      · simp only [Except.ok.injEq] at h
        exact ⟨x, h.symm⟩
  | int n =>
    cases hpf : pyFloat (.int n) with
    | none => simp [hpf] at h
    | some x =>
      simp only [hpf] at h
      split at h
      · simp at h
      · simp only [Except.ok.injEq] at h
        exact ⟨x, h.symm⟩
  | other =>
    cases hpf : pyFloat .other with
    | none => simp [hpf] at h
    | some x =>
      simp only [hpf] at h
      split at h
      · simp at h
      · simp only [Except.ok.injEq] at h
        exact ⟨x, h.symm⟩

/-- Successful overall validation decomposes into success of the field
validators on the corresponding components. -/
theorem validate_all_inputs_ok_parts
    (symbol side order_type quantity price : PyVal) (v : Validated)
    (h : validate_all_inputs symbol side order_type quantity price = .ok v) :
    validate_symbol symbol = .ok v.symbol ∧
    validate_side side = .ok v.side ∧
    validate_order_type order_type = .ok v.order_type ∧
    validate_quantity quantity = .ok v.quantity ∧
    validate_price price (.str v.order_type) = .ok v.price := by
  unfold validate_all_inputs at h
  cases h1 : validate_symbol symbol with
  | error e => simp [h1] at h
  | ok s =>
    simp only [h1] at h
    cases h2 : validate_side side with
    | error e => simp [h2] at h
    | ok sd =>
      simp only [h2] at h
      cases h3 : validate_order_type order_type with
      | error e => simp [h3] at h
      | ok ot =>
        simp only [h3] at h
        cases h4 : validate_quantity quantity with
        | error e => simp [h4] at h
        | ok q =>
          simp only [h4] at h
          cases h5 : validate_price price (.str ot) with
          | error e => simp [h5] at h
          | ok px =>
            simp only [h5, Except.ok.injEq] at h
            subst h
            exact ⟨rfl, rfl, rfl, rfl, h5⟩

/-- C2: on a validated request, place_order calls place_market_order
with exactly symbol, side and quantity (no price) when the normalized
type is MARKET, and place_limit_order with symbol, side, quantity, a
present price and timeInForce GTC when it is LIMIT. -/
theorem place_order_dispatch (client : ClientCall → PyDict)
    (symbol side order_type quantity price : PyVal) (v : Validated)
    (h : validate_all_inputs symbol side order_type quantity price = .ok v) :
    (v.order_type = "MARKET" →
      place_order client symbol side order_type quantity price =
        (.ok (extract_order_details
          (client (.market_order v.symbol v.side v.quantity))),
         [.market_order v.symbol v.side v.quantity])) ∧
    (v.order_type = "LIMIT" →
      (∃ x, v.price = some x) ∧
      place_order client symbol side order_type quantity price =
        (.ok (extract_order_details
          (client (.limit_order v.symbol v.side v.quantity v.price "GTC"))),
         [.limit_order v.symbol v.side v.quantity v.price "GTC"])) := by
  constructor
  · intro hm
    simp [place_order, h, hm]
  · intro hl
    constructor
    · have hp := (validate_all_inputs_ok_parts symbol side order_type
        quantity price v h).2.2.2.2
      rw [hl] at hp
      exact validate_price_limit_some price v.price hp
    · have hne : ¬ v.order_type = "MARKET" := by rw [hl]; decide
      simp [place_order, h, hne]

/-- Witness for C2 at the LIMIT request
("ETHUSDT", "SELL", "LIMIT", 0.01, 3500.50). -/
theorem place_order_dispatch_witness :
    place_order (fun _ => []) (.str "ETHUSDT") (.str "SELL") (.str "LIMIT")
      (.float (.val (Rat.divInt 1 100))) (.float (.val (Rat.divInt 7001 2))) =
      (.ok (extract_order_details []),
       [.limit_order "ETHUSDT" "SELL" (.val (Rat.divInt 1 100))
         (some (.val (Rat.divInt 7001 2))) "GTC"]) :=
  ((place_order_dispatch (fun _ => []) (.str "ETHUSDT") (.str "SELL")
    (.str "LIMIT") (.float (.val (Rat.divInt 1 100)))
    (.float (.val (Rat.divInt 7001 2)))
    ⟨"ETHUSDT", "SELL", "LIMIT", .val (Rat.divInt 1 100),
      some (.val (Rat.divInt 7001 2))⟩
    (by decide)).2 rfl).2

/-- C4 fails as stated: the raw symbol " BTCUSDT" contains a
non-alphanumeric character (a leading space), yet validate_symbol
accepts it, because the string is stripped before the alphanumeric
check. -/
theorem validate_symbol_claim_counterexample :
    (" BTCUSDT").data.any (fun c => !(isAlnumChar c)) = true ∧
    validate_symbol (.str " BTCUSDT") = .ok "BTCUSDT" := by
  decide

/-- C4 amended: for every symbol string whose upper-cased,
whitespace-stripped form contains a character outside [A-Z0-9],
validate_symbol fails; it also fails on every non-string, on the empty
string, and on strings shorter than 2 characters after
normalization. -/
theorem validate_symbol_rejects (s : String) (v : PyVal) :
    ((pyStrip (strUpper s)).data.any (fun c => !(isUpperAlnum c)) = true →
      isErr (validate_symbol (.str s)) = true) ∧
    ((∀ t, v ≠ PyVal.str t) → validate_symbol v = .error .symbolNotString) ∧
    (validate_symbol (.str "") = .error .symbolNotString) ∧
    ((pyStrip (strUpper s)).length < 2 →
      isErr (validate_symbol (.str s)) = true) := by
  refine ⟨?_, ?_, by decide, ?_⟩
  · intro h
    by_cases hs : s = ""
    · subst hs; decide
    · obtain ⟨c, hc, hnc⟩ := List.any_eq_true.mp h
      simp only [validate_symbol, if_neg hs]
      rw [if_neg]
      · rfl
      · intro hcond
        have := List.all_eq_true.mp hcond.2 c hc
        rw [this] at hnc
        exact absurd hnc (by decide)
  · intro hv
    cases v with
    | str t => exact absurd rfl (hv t)
    | float x => rfl
    | int n => rfl
    | pynone => rfl
    | other => rfl
  · intro hlen
    by_cases hs : s = ""
    · subst hs; decide
    · simp only [validate_symbol, if_neg hs]
      split <;> rfl

/-- Witness for the amended C4 at the interior-space symbol "BT C", the
non-string None, and the length-1 symbol "A". -/
theorem validate_symbol_rejects_witness :
    isErr (validate_symbol (.str "BT C")) = true ∧
    validate_symbol .pynone = .error .symbolNotString ∧
    isErr (validate_symbol (.str "A")) = true :=
  ⟨(validate_symbol_rejects "BT C" .pynone).1 (by decide),
   (validate_symbol_rejects "" .pynone).2.1 (fun t h => PyVal.noConfusion h),
   (validate_symbol_rejects "A" .pynone).2.2.2 (by decide)⟩
